import Mathlib

/-!
Shallow embedding of `src/transaction.py` (class `TransactionManager`).

Modelling conventions:
* Python lists are Lean `List`s kept in Python order: `append` is `· ++ [x]`,
  `xs[-1]` is the last element, `pop()` drops the last element.
* `datetime.now()` is modelled by passing an explicit `Int` timestamp to each
  operation; `timedelta(days = d)` is `d * 86400` in the same unit (seconds).
* A compensating callable is modelled as an `RAction`: an identifier (so an
  execution trace can record invocation order) plus an optional error message
  (`none` = the call returns normally, `some m` = the call raises with
  message `m`).
* A raised Python exception is a `PyErr`: the exception class name and the
  message. Operations that can raise return the mutated state together with
  `Option PyErr`, reflecting mutations already performed before the raise.
* Executing rollback actions yields the trace of invoked action identifiers
  (in invocation order) and the error, if one was raised.
-/

namespace TxMgr

/-- Lifecycle status of a transaction log entry (`status` field in the code). -/
inductive Status
  | in_progress
  | committed
  | rolled_back
deriving DecidableEq, Repr

/-- A compensating callable: an identifier for tracing, and `err = some m`
when calling it raises an exception with message `m`. -/
structure RAction where
  id : Nat
  err : Option String
deriving DecidableEq, Repr

/-- A raised Python exception: class name and message. -/
structure PyErr where
  ty : String
  msg : String
deriving DecidableEq, Repr

/-- One element of a log entry's `actions` list: the dicts built by
`add_action` (with a `details` key) and `add_rollback_action` (without). -/
structure AuditEntry where
  type : String
  details : Option String
  timestamp : Int
deriving DecidableEq, Repr

/-- One element of `transaction_log`: the dict built by `begin_transaction`;
`end_time` is absent (`none`) until `commit` or `rollback` sets it. -/
structure LogEntry where
  start_time : Int
  actions : List AuditEntry
  status : Status
  end_time : Option Int
deriving DecidableEq, Repr

/-- The mutable state of a `TransactionManager`: the stack of open frames
(each frame is its list of registered rollback callables, in registration
order) and the historical log. The field `rollback_actions` of the Python
class is initialised and never used by any method, so it is omitted. -/
structure TMState where
  transaction_stack : List (List RAction)
  transaction_log : List LogEntry
deriving DecidableEq, Repr

/-- The state after `__init__`: both lists empty. -/
def initState : TMState := ⟨[], []⟩

/-- Apply `f` to the last element of a list (Python `xs[-1] = f(xs[-1])` /
in-place mutation of `xs[-1]`); identity on the empty list. -/
def updateLast (f : α → α) : List α → List α
  | [] => []
  | [x] => [f x]
  | x :: y :: xs => x :: updateLast f (y :: xs)

/-- `begin_transaction`: push an empty frame, append a fresh
`in_progress` log entry with `start_time = now`. -/
def begin_transaction (now : Int) (s : TMState) : TMState :=
  { transaction_stack := s.transaction_stack ++ [[]]
    transaction_log := s.transaction_log ++
      [{ start_time := now, actions := [], status := .in_progress, end_time := none }] }

/-- `add_rollback_action`: if the stack is non-empty, append the callable to
the top frame, then append a `rollback_action` audit entry to
`transaction_log[-1]` — which raises `IndexError` when the log is empty
(the stack mutation has already happened at that point). No-op on an empty
stack. -/
def add_rollback_action (now : Int) (a : RAction) (s : TMState) : TMState × Option PyErr :=
  if s.transaction_stack = [] then (s, none)
  else
    let s1 : TMState :=
      { s with transaction_stack := updateLast (fun fr => fr ++ [a]) s.transaction_stack }
    if s1.transaction_log = [] then
      (s1, some { ty := "IndexError", msg := "list index out of range" })
    else
      let f := fun (e : LogEntry) => { e with actions :=
        e.actions ++ [{ type := "rollback_action", details := none, timestamp := now }] }
      ({ s1 with transaction_log := updateLast f s1.transaction_log }, none)

/-- `add_action`: if the log is non-empty, append an audit entry with the
given type and details to `transaction_log[-1]`; no-op otherwise. (The guard
tests the log, not the stack.) -/
def add_action (now : Int) (action_type : String) (details : String) (s : TMState) : TMState :=
  if s.transaction_log = [] then s
  else
    let f := fun (e : LogEntry) => { e with actions :=
      e.actions ++ [{ type := action_type, details := some details, timestamp := now }] }
    { s with transaction_log := updateLast f s.transaction_log }

/-- `commit`: if the stack is non-empty, pop the top frame, then (if the log
is non-empty) set `status = committed` and `end_time = now` on
`transaction_log[-1]`. No-op on an empty stack. -/
def commit (now : Int) (s : TMState) : TMState :=
  if s.transaction_stack = [] then s
  else
    let f := fun (e : LogEntry) => { e with status := .committed, end_time := some now }
    let log1 :=
      if s.transaction_log = [] then s.transaction_log
      else updateLast f s.transaction_log
    { transaction_stack := s.transaction_stack.dropLast, transaction_log := log1 }

/-- Run a list of compensating callables in the given order, as the `for`
loop of `rollback` does with `reversed(actions)`: each invoked callable
contributes its identifier to the trace; the first one that raises aborts the
loop and the original exception `m` is re-raised as
`TransactionError("Rollback failed: " ++ m)`. -/
def runActions : List RAction → List Nat × Option PyErr
  | [] => ([], none)
  | a :: rest =>
    match a.err with
    | none =>
      let r := runActions rest
      (a.id :: r.1, r.2)
    | some m => ([a.id], some { ty := "TransactionError", msg := "Rollback failed: " ++ m })

/-- `rollback`: if the stack is non-empty, pop the top frame, set
`status = rolled_back` and `end_time = now` on `transaction_log[-1]` (when
the log is non-empty), then execute the popped frame's callables in reverse
registration order. Returns the new state, the invocation trace and the
raised error, if any. No-op on an empty stack. -/
def rollback (now : Int) (s : TMState) : TMState × List Nat × Option PyErr :=
  if s.transaction_stack = [] then (s, [], none)
  else
    let actions := s.transaction_stack.getLastD []
    let stack1 := s.transaction_stack.dropLast
    let f := fun (e : LogEntry) => { e with status := .rolled_back, end_time := some now }
    let log1 :=
      if s.transaction_log = [] then s.transaction_log
      else updateLast f s.transaction_log
    let r := runActions actions.reverse
    (⟨stack1, log1⟩, r.1, r.2)

/-- The `transaction()` context manager: `begin_transaction`, run the unit of
work (modelled as a state transformer that may raise); on success `commit`,
on failure `rollback` and then raise `TransactionError("Transaction failed:
" ++ msg)` — unless `rollback` itself raised, in which case that exception
propagates instead. `t1` is the clock at `begin`, `t2` at `commit`/`rollback`. -/
def transaction (t1 t2 : Int) (work : TMState → TMState × Option PyErr) (s : TMState) :
    TMState × List Nat × Option PyErr :=
  let s0 := begin_transaction t1 s
  let r := work s0
  match r.2 with
  | none => (commit t2 r.1, [], none)
  | some e =>
    let rb := rollback t2 r.1
    match rb.2.2 with
    | some re => (rb.1, rb.2.1, some re)
    | none => (rb.1, rb.2.1, some { ty := "TransactionError", msg := "Transaction failed: " ++ e.msg })

/-- `clear_logs`: keep exactly the log entries whose `start_time` is strictly
greater than `now - older_than_days` days; the stack is untouched. -/
def clear_logs (now : Int) (older_than_days : Int) (s : TMState) : TMState :=
  let cutoff := now - older_than_days * 86400
  { s with transaction_log := s.transaction_log.filter (fun e => cutoff < e.start_time) }

end TxMgr

namespace TxMgr

/-! ### Helper lemmas -/

theorem updateLast_concat (f : α → α) (l : List α) (a : α) :
    updateLast f (l ++ [a]) = l ++ [f a] := by
  induction l with
  | nil => rfl
  | cons x xs ih =>
    cases xs with
    | nil => rfl
    | cons y ys =>
      simpa [updateLast] using ih

theorem runActions_all_ok (l : List RAction) (h : ∀ a ∈ l, a.err = none) :
    runActions l = (l.map RAction.id, none) := by
  induction l with
  | nil => rfl
  | cons a rest ih =>
    have ha : a.err = none := h a (by simp)
    have hrest : ∀ b ∈ rest, b.err = none := fun b hb => h b (by simp [hb])
    simp [runActions, ha, ih hrest]

theorem runActions_append_all_ok (zs l : List RAction) (h : ∀ a ∈ zs, a.err = none) :
    runActions (zs ++ l) = (zs.map RAction.id ++ (runActions l).1, (runActions l).2) := by
  induction zs with
  | nil => rfl
  | cons a rest ih =>
    have ha : a.err = none := h a (by simp)
    have hrest : ∀ b ∈ rest, b.err = none := fun b hb => h b (by simp [hb])
    simp [runActions, ha, ih hrest]

theorem runActions_fail_head (b : RAction) (l : List RAction) (m : String)
    (hb : b.err = some m) :
    runActions (b :: l) =
      ([b.id], some { ty := "TransactionError", msg := "Rollback failed: " ++ m }) := by
  simp [runActions, hb]

theorem runActions_err_shape (l : List RAction) (e : PyErr)
    (h : (runActions l).2 = some e) :
    e.ty = "TransactionError" ∧ ∃ m, e.msg = "Rollback failed: " ++ m := by
  induction l with
  | nil => simp [runActions] at h
  | cons a rest ih =>
    cases ha : a.err with
    | none =>
      rw [runActions, ha] at h
      exact ih h
    | some m =>
      rw [runActions, ha] at h
      simp only [Option.some.injEq] at h
      subst h
      exact ⟨rfl, m, rfl⟩

theorem rollback_concat (now : Int) (s : TMState) (rest : List (List RAction))
    (acts : List RAction) (hstack : s.transaction_stack = rest ++ [acts]) :
    (rollback now s).2 = runActions acts.reverse := by
  have hne : s.transaction_stack ≠ [] := by simp [hstack]
  rw [rollback, if_neg hne, hstack, List.getLastD_concat]

end TxMgr

namespace TxMgr

/-! ### Claim theorems -/

/-- C1: the claim says that `commit()` on a non-empty stack closes the log
entry created by its matching `begin` (status `committed`, `end_time = now`).
The code instead always mutates `transaction_log[-1]`: after
`begin; begin; commit; commit` the outer frame's entry (index 0) is still
`in_progress` with no `end_time`, while the inner entry (index 1), already
committed at time 3 by the first commit, has its `end_time` overwritten to 4
by the second commit. -/
theorem C1_commit_updates_wrong_entry_under_nesting :
    (commit 4 (commit 3 (begin_transaction 2 (begin_transaction 1 initState)))).transaction_stack
      = [] ∧
    (commit 4 (commit 3 (begin_transaction 2 (begin_transaction 1 initState)))).transaction_log.map
      (fun e => (e.status, e.end_time))
      = [(Status.in_progress, none), (Status.committed, some 4)] := by
  decide

/-- C5: the claim says a log entry that is `committed`/`rolled_back` with
`end_time` set is never mutated again. In the code, after
`begin; begin; commit`, the inner entry is `committed` with `end_time = 3`;
the subsequent `rollback` (which pops the *outer* frame) mutates that same
already-closed entry to `rolled_back` with `end_time = 4`. -/
theorem C5_closed_entry_mutated_by_later_rollback :
    (commit 3 (begin_transaction 2 (begin_transaction 1 initState))).transaction_log.map
      (fun e => (e.status, e.end_time))
      = [(Status.in_progress, none), (Status.committed, some 3)] ∧
    ((rollback 4 (commit 3 (begin_transaction 2 (begin_transaction 1 initState)))).1).transaction_log.map
      (fun e => (e.status, e.end_time))
      = [(Status.in_progress, none), (Status.rolled_back, some 4)] := by
  decide

/-- C6 counterexample: the claim says `add_action` is a no-op whenever the
stack is empty, including after `begin; commit` where the log is non-empty.
In that very state the code appends an audit entry to the closed entry
`transaction_log[-1]`, so the call is not a no-op. -/
theorem C6_counterexample_not_noop_on_empty_stack :
    (commit 2 (begin_transaction 1 initState)).transaction_stack = [] ∧
    add_action 3 "update" "d" (commit 2 (begin_transaction 1 initState)) ≠
      commit 2 (begin_transaction 1 initState) := by
  decide

/-- C6 (amended): `add_action` appends exactly one audit entry
`{kind, detail, timestamp}` to the *last log entry* whenever the log is
non-empty — regardless of whether the stack is empty or that entry's frame
is closed — and is a no-op exactly when the log is empty; the stack is never
changed. -/
theorem C6_add_action_appends_to_last_log_entry (now : Int) (k d : String) (s : TMState) :
    (add_action now k d s).transaction_stack = s.transaction_stack ∧
    ((s.transaction_log = [] ∧ add_action now k d s = s) ∨
      ∃ es e, s.transaction_log = es ++ [e] ∧
        (add_action now k d s).transaction_log =
          es ++ [{ e with actions := e.actions ++ [⟨k, some d, now⟩] }]) := by
  rcases List.eq_nil_or_concat s.transaction_log with h | ⟨es, e, hc⟩
  · refine ⟨by simp [add_action, h], Or.inl ⟨h, by simp [add_action, h]⟩⟩
  · have h : s.transaction_log = es ++ [e] := by simpa [List.concat_eq_append] using hc
    have hne : s.transaction_log ≠ [] := by simp [h]
    refine ⟨by simp [add_action, hne], Or.inr ⟨es, e, h, ?_⟩⟩
    simp [add_action, hne, h, updateLast_concat]

/-- C7: the claim says `addRollbackAction` never raises on any reachable
state, including one where `clearLogs` pruned the log entry of a still-open
frame. In that state (stack non-empty, log empty) the code appends the
action to the top frame and then evaluates `self.transaction_log[-1]`, which
raises `IndexError`. Reached here by `begin` at time 0 and
`clear_logs(older_than_days = 1)` at time 2592000. -/
theorem C7_add_rollback_action_raises_after_prune :
    (clear_logs 2592000 1 (begin_transaction 0 initState)).transaction_stack ≠ [] ∧
    (clear_logs 2592000 1 (begin_transaction 0 initState)).transaction_log = [] ∧
    (add_rollback_action 3 ⟨1, none⟩
      (clear_logs 2592000 1 (begin_transaction 0 initState))).2 =
      some ⟨"IndexError", "list index out of range"⟩ := by
  decide

/-- C8: the claim says every `rollback()` on a non-empty stack records
`status = rolled_back` and `end_time` on the popped frame's log entry before
compensations run. The code only writes to `transaction_log[-1]` when the
log is non-empty: after `begin; add_rollback_action; clear_logs` (which
prunes the open frame's entry), `rollback` executes the compensation (trace
`[7]`) while the log stays empty — no entry ever records `rolled_back`. -/
theorem C8_rollback_records_no_status_after_prune :
    (clear_logs 2592000 1
      ((add_rollback_action 1 ⟨7, none⟩ (begin_transaction 0 initState)).1)).transaction_stack
      = [[⟨7, none⟩]] ∧
    (clear_logs 2592000 1
      ((add_rollback_action 1 ⟨7, none⟩ (begin_transaction 0 initState)).1)).transaction_log
      = [] ∧
    (rollback 5 (clear_logs 2592000 1
      ((add_rollback_action 1 ⟨7, none⟩ (begin_transaction 0 initState)).1))).2.1 = [7] ∧
    ((rollback 5 (clear_logs 2592000 1
      ((add_rollback_action 1 ⟨7, none⟩ (begin_transaction 0 initState)).1))).1).transaction_log
      = [] := by
  decide

/-- C9 counterexample: the claim says `clearLogs(olderThanDays)` removes
exactly the entries whose `start_time` is strictly older than
`now - olderThanDays` days. An entry whose `start_time` equals the cutoff
exactly (here `start_time = 0`, `now = 2592000`, 30 days = `2592000`
seconds, cutoff `= 0`) is *not* older than the cutoff, yet the code removes
it, because it keeps only entries with `start_time > cutoff`. -/
theorem C9_counterexample_cutoff_boundary :
    (begin_transaction 0 initState).transaction_log.map LogEntry.start_time = [0] ∧
    (2592000 : Int) - 30 * 86400 = 0 ∧
    ¬ ((0 : Int) < 2592000 - 30 * 86400) ∧
    (clear_logs 2592000 30 (begin_transaction 0 initState)).transaction_log = [] := by
  decide

/-- C9 (amended): `clearLogs(olderThanDays)` removes exactly the log entries
whose `start_time` is older than **or equal to** `now - olderThanDays` days
(an entry survives iff its `start_time` is strictly newer than the cutoff),
regardless of status, and never changes the live stack. -/
theorem C9_clear_logs_prunes_by_cutoff (now d : Int) (s : TMState) :
    (clear_logs now d s).transaction_stack = s.transaction_stack ∧
    ∀ e : LogEntry, e ∈ (clear_logs now d s).transaction_log ↔
      e ∈ s.transaction_log ∧ now - d * 86400 < e.start_time := by
  refine ⟨rfl, fun e => ?_⟩
  simp [clear_logs, List.mem_filter]

end TxMgr

namespace TxMgr

/-- C2: when the top frame holds the rollback actions `acts` registered in
that order and none of them fails, `rollback()` executes exactly those
actions, each once, in reverse registration order (the invocation trace is
the reverse of the registration-order identifier list) and raises nothing. -/
theorem C2_rollback_reverse_registration_order (now : Int) (s : TMState)
    (rest : List (List RAction)) (acts : List RAction)
    (hstack : s.transaction_stack = rest ++ [acts])
    (hok : ∀ a ∈ acts, a.err = none) :
    (rollback now s).2.1 = (acts.map RAction.id).reverse ∧
    (rollback now s).2.2 = none := by
  have h2 := rollback_concat now s rest acts hstack
  have hrev : ∀ a ∈ acts.reverse, a.err = none := fun a ha =>
    hok a (List.mem_reverse.mp ha)
  rw [runActions_all_ok acts.reverse hrev] at h2
  refine ⟨?_, ?_⟩
  · rw [h2]
    simp [List.map_reverse]
  · rw [h2]

/-- Witness for C2: actions with identifiers 1, 2, 3 registered in that
order are executed in the order 3, 2, 1. -/
theorem C2_witness :
    (rollback 9 (⟨[[⟨1, none⟩, ⟨2, none⟩, ⟨3, none⟩]], []⟩ : TMState)).2.1 =
      (([⟨1, none⟩, ⟨2, none⟩, ⟨3, none⟩] : List RAction).map RAction.id).reverse ∧
    (rollback 9 (⟨[[⟨1, none⟩, ⟨2, none⟩, ⟨3, none⟩]], []⟩ : TMState)).2.2 = none :=
  C2_rollback_reverse_registration_order 9
    (⟨[[⟨1, none⟩, ⟨2, none⟩, ⟨3, none⟩]], []⟩ : TMState)
    [] [⟨1, none⟩, ⟨2, none⟩, ⟨3, none⟩] rfl (by decide)

/-- C3: when the top frame is `xs ++ b :: ys` in registration order, `b`
raises with message `m`, and everything registered after `b` (the list `ys`)
succeeds, `rollback()` invokes the actions of `ys` in reverse order, then
`b` — and nothing registered before `b` — and raises
`TransactionError("Rollback failed: " ++ m)` carrying the cause. -/
theorem C3_rollback_halts_on_failing_compensation (now : Int) (s : TMState)
    (rest : List (List RAction)) (xs ys : List RAction) (b : RAction) (m : String)
    (hstack : s.transaction_stack = rest ++ [xs ++ b :: ys])
    (hb : b.err = some m)
    (hok : ∀ a ∈ ys, a.err = none) :
    (rollback now s).2.1 = (ys.map RAction.id).reverse ++ [b.id] ∧
    (rollback now s).2.2 = some ⟨"TransactionError", "Rollback failed: " ++ m⟩ := by
  have h2 := rollback_concat now s rest (xs ++ b :: ys) hstack
  have hrevys : ∀ a ∈ ys.reverse, a.err = none := fun a ha =>
    hok a (List.mem_reverse.mp ha)
  have hsplit : (xs ++ b :: ys).reverse = ys.reverse ++ b :: xs.reverse := by
    simp
  rw [hsplit, runActions_append_all_ok ys.reverse (b :: xs.reverse) hrevys,
    runActions_fail_head b xs.reverse m hb] at h2
  refine ⟨?_, ?_⟩
  · rw [h2]
    simp [List.map_reverse]
  · rw [h2]

/-- Witness for C3: with actions 1 (succeeds), 2 (raises "boom"),
3 (succeeds) registered in that order, rollback runs 3, then 2 raises, and
1 is never invoked; the surfaced failure is
`TransactionError("Rollback failed: boom")`. -/
theorem C3_witness :
    (rollback 9 (⟨[[⟨1, none⟩, ⟨2, some "boom"⟩, ⟨3, none⟩]], []⟩ : TMState)).2.1 =
      (([⟨3, none⟩] : List RAction).map RAction.id).reverse ++ [(⟨2, some "boom"⟩ : RAction).id] ∧
    (rollback 9 (⟨[[⟨1, none⟩, ⟨2, some "boom"⟩, ⟨3, none⟩]], []⟩ : TMState)).2.2 =
      some ⟨"TransactionError", "Rollback failed: " ++ "boom"⟩ :=
  C3_rollback_halts_on_failing_compensation 9
    (⟨[[⟨1, none⟩, ⟨2, some "boom"⟩, ⟨3, none⟩]], []⟩ : TMState)
    [] [⟨1, none⟩] [⟨3, none⟩] ⟨2, some "boom"⟩ "boom" rfl rfl (by decide)

end TxMgr

namespace TxMgr

/-- Every error surfaced by `rollback` is a `TransactionError` whose message
is `"Rollback failed: "` followed by the failing compensation's message. -/
theorem rollback_err_shape (now : Int) (s : TMState) (e : PyErr)
    (h : (rollback now s).2.2 = some e) :
    e.ty = "TransactionError" ∧ ∃ m, e.msg = "Rollback failed: " ++ m := by
  by_cases hs : s.transaction_stack = []
  · rw [rollback, if_pos hs] at h
    simp at h
  · rw [rollback, if_neg hs] at h
    exact runActions_err_shape _ e h

/-- C4: when the unit of work raises a failure `e`, the scoped wrapper
performs `rollback()` — the final state and the compensation trace are those
of the rollback — and then surfaces a failure: the `RollbackFailure` raised
by the rollback when one occurred, otherwise a
`TransactionError("Transaction failed: " ++ e.msg)` wrapping the original
cause. -/
theorem C4_wrapper_failure_path (t1 t2 : Int) (w : TMState → TMState × Option PyErr)
    (s : TMState) (e : PyErr)
    (hw : (w (begin_transaction t1 s)).2 = some e) :
    (transaction t1 t2 w s).1 = (rollback t2 (w (begin_transaction t1 s)).1).1 ∧
    (transaction t1 t2 w s).2.1 = (rollback t2 (w (begin_transaction t1 s)).1).2.1 ∧
    (transaction t1 t2 w s).2.2 =
      some (((rollback t2 (w (begin_transaction t1 s)).1).2.2).getD
        ⟨"TransactionError", "Transaction failed: " ++ e.msg⟩) := by
  simp only [transaction, hw]
  cases hrb : (rollback t2 (w (begin_transaction t1 s)).1).2.2 with
  | none => simp [hrb]
  | some re => simp [hrb]

/-- Witness for C4: a unit of work that registers a compensation which fails
with "bad" and then itself raises ValueError "oops"; the wrapper rolls back,
the rollback raises `TransactionError("Rollback failed: bad")`, and that
failure — not the `Transaction failed` wrapper — is the one surfaced. -/
theorem C4_witness :
    (transaction 1 2
      (fun st => ((add_rollback_action 2 ⟨5, some "bad"⟩ st).1, some ⟨"ValueError", "oops"⟩))
      initState).1 =
      (rollback 2
        ((fun (st : TMState) =>
          ((add_rollback_action 2 ⟨5, some "bad"⟩ st).1,
            (some ⟨"ValueError", "oops"⟩ : Option PyErr))) (begin_transaction 1 initState)).1).1 ∧
    (transaction 1 2
      (fun st => ((add_rollback_action 2 ⟨5, some "bad"⟩ st).1, some ⟨"ValueError", "oops"⟩))
      initState).2.1 =
      (rollback 2
        ((fun (st : TMState) =>
          ((add_rollback_action 2 ⟨5, some "bad"⟩ st).1,
            (some ⟨"ValueError", "oops"⟩ : Option PyErr))) (begin_transaction 1 initState)).1).2.1 ∧
    (transaction 1 2
      (fun st => ((add_rollback_action 2 ⟨5, some "bad"⟩ st).1, some ⟨"ValueError", "oops"⟩))
      initState).2.2 =
      some (((rollback 2
        ((fun (st : TMState) =>
          ((add_rollback_action 2 ⟨5, some "bad"⟩ st).1,
            (some ⟨"ValueError", "oops"⟩ : Option PyErr))) (begin_transaction 1 initState)).1).2.2).getD
        ⟨"TransactionError", "Transaction failed: " ++ (⟨"ValueError", "oops"⟩ : PyErr).msg⟩) :=
  C4_wrapper_failure_path 1 2
    (fun st => ((add_rollback_action 2 ⟨5, some "bad"⟩ st).1, some ⟨"ValueError", "oops"⟩))
    initState ⟨"ValueError", "oops"⟩ rfl

/-- Every error surfaced by the scoped wrapper is a `TransactionError`:
either the rollback's own `Rollback failed` error or the wrapper's
`Transaction failed` error. -/
theorem transaction_err_ty (t1 t2 : Int) (w : TMState → TMState × Option PyErr)
    (s : TMState) (e : PyErr)
    (h : (transaction t1 t2 w s).2.2 = some e) :
    e.ty = "TransactionError" := by
  simp only [transaction] at h
  cases hwe : (w (begin_transaction t1 s)).2 with
  | none =>
    rw [hwe] at h
    simp at h
  | some e0 =>
    rw [hwe] at h
    cases hrb : (rollback t2 (w (begin_transaction t1 s)).1).2.2 with
    | none =>
      rw [hrb] at h
      simp only [Option.some.injEq] at h
      rw [← h]
    | some re =>
      rw [hrb] at h
      simp only [Option.some.injEq] at h
      rw [← h]
      exact (rollback_err_shape t2 _ re hrb).1

/-- C10: the failure raised when a compensation throws during `rollback()`
and the failure raised by the scoped wrapper are values of one and the same
exception type `TransactionError` — a caller cannot tell the two apart by
type, only by message text. -/
theorem C10_single_error_type (now t1 t2 : Int) (s sw : TMState)
    (w : TMState → TMState × Option PyErr) (e1 e2 : PyErr)
    (h1 : (rollback now s).2.2 = some e1)
    (h2 : (transaction t1 t2 w sw).2.2 = some e2) :
    e1.ty = "TransactionError" ∧ e2.ty = "TransactionError" ∧ e1.ty = e2.ty := by
  have a1 := (rollback_err_shape now s e1 h1).1
  have a2 := transaction_err_ty t1 t2 w sw e2 h2
  exact ⟨a1, a2, a1.trans a2.symm⟩

/-- Witness for C10: a concrete rollback failure (compensation raising
"boom") and a concrete wrapper failure (work raising "oops") both carry the
exception type `TransactionError`. -/
theorem C10_witness :
    (⟨"TransactionError", "Rollback failed: boom"⟩ : PyErr).ty = "TransactionError" ∧
    (⟨"TransactionError", "Transaction failed: oops"⟩ : PyErr).ty = "TransactionError" ∧
    (⟨"TransactionError", "Rollback failed: boom"⟩ : PyErr).ty =
      (⟨"TransactionError", "Transaction failed: oops"⟩ : PyErr).ty :=
  C10_single_error_type 9 1 2
    (⟨[[⟨1, some "boom"⟩]], []⟩ : TMState) initState
    (fun st => (st, some ⟨"ValueError", "oops"⟩))
    ⟨"TransactionError", "Rollback failed: boom"⟩
    ⟨"TransactionError", "Transaction failed: oops"⟩
    (by decide) (by decide)

end TxMgr
